import Mathlib

/-!
Verification development for the AI-request gateway of the `axiom` repository:
the `GeminiAI` wrapper class (`lib/gemini.js`) and its two HTTP handlers
(`pages/api/gemini/chat.js` and `pages/api/gemini/project-builder.js`).

The JavaScript code is shallowly embedded: the external model provider is a
function from the assembled prompt to either a response text or an error
message (`Provider`), thrown exceptions are `Except.error`, JavaScript
`undefined` for an absent request-body field is `Option.none`, and
`JSON.parse` / the greedy regex span `/\x7b[\s\S]*\x7d/` are modelled by an
executable JSON parser and an explicit first-brace/last-brace extraction.
-/

/-- JSON values, as produced by `JSON.parse`.  Numbers keep their source
lexeme: no claim compares numeric magnitudes, only acceptance and key sets. -/
inductive Json where
  | null
  | bool (b : Bool)
  | num (lexeme : String)
  | str (s : String)
  | arr (elems : List Json)
  | obj (fields : List (String × Json))
deriving Repr, Inhabited

/-- JSON whitespace (space, tab, line feed, carriage return). -/
def isJsonWs (c : Char) : Bool :=
  c == ' ' || c == '\t' || c == '\n' || c == '\r'

/-- Drop leading JSON whitespace. -/
def skipWs : List Char → List Char
  | [] => []
  | c :: rest => if isJsonWs c then skipWs rest else c :: rest

/-- Hexadecimal digit value, for `\uXXXX` escapes. -/
def hexVal (c : Char) : Option Nat :=
  if '0' ≤ c ∧ c ≤ '9' then some (c.toNat - '0'.toNat)
  else if 'a' ≤ c ∧ c ≤ 'f' then some (c.toNat - 'a'.toNat + 10)
  else if 'A' ≤ c ∧ c ≤ 'F' then some (c.toNat - 'A'.toNat + 10)
  else none

/-- Body of a JSON string literal, after the opening quote; returns the decoded
characters and the rest of the input after the closing quote.  Fueled to make
termination structural; fuel `length + 1` always suffices because every step
consumes at least one character. -/
def parseStringBody : Nat → List Char → Option (List Char × List Char)
  | 0, _ => none
  | _, [] => none
  | fuel + 1, c :: rest =>
    if c == '"' then some ([], rest)
    else if c == '\\' then
      match rest with
      | [] => none
      | e :: r2 =>
        let cont := fun (d : Char) (r : List Char) =>
          (parseStringBody fuel r).map (fun p => (d :: p.1, p.2))
        if e == '"' then cont '"' r2
        else if e == '\\' then cont '\\' r2
        else if e == '/' then cont '/' r2
        else if e == 'b' then cont (Char.ofNat 8) r2
        else if e == 'f' then cont (Char.ofNat 12) r2
        else if e == 'n' then cont '\n' r2
        else if e == 'r' then cont '\r' r2
        else if e == 't' then cont '\t' r2
        else if e == 'u' then
          match r2 with
          | h1 :: h2 :: h3 :: h4 :: r3 =>
            match hexVal h1, hexVal h2, hexVal h3, hexVal h4 with
            | some a, some b, some c', some d =>
              cont (Char.ofNat (a * 4096 + b * 256 + c' * 16 + d)) r3
            | _, _, _, _ => none
          | _ => none
        else none
    else if c.toNat < 32 then none
    else (parseStringBody fuel rest).map (fun p => (c :: p.1, p.2))

/-- JSON string literal starting after the opening quote. -/
def parseStringLit (cs : List Char) : Option (String × List Char) :=
  (parseStringBody (cs.length + 1) cs).map (fun p => (⟨p.1⟩, p.2))

/-- The integer part of a JSON number: `0` or a nonzero digit followed by
digits (leading zeros are rejected, as in `JSON.parse`). -/
def parseIntPart (cs : List Char) : Option (List Char × List Char) :=
  match cs with
  | [] => none
  | c :: rest =>
    if c == '0' then some ([c], rest)
    else if c.isDigit then
      let p := rest.span Char.isDigit
      some (c :: p.1, p.2)
    else none

/-- Optional fraction part `.digits` of a JSON number. -/
def parseFracPart (cs : List Char) : Option (List Char × List Char) :=
  match cs with
  | '.' :: rest =>
    match rest.span Char.isDigit with
    | ([], _) => none
    | (ds, r) => some ('.' :: ds, r)
  | _ => some ([], cs)

/-- Optional exponent part `[eE][+-]?digits` of a JSON number. -/
def parseExpPart (cs : List Char) : Option (List Char × List Char) :=
  match cs with
  | e :: rest =>
    if e == 'e' || e == 'E' then
      let (sgn, r1) :=
        match rest with
        | s :: r => if s == '+' || s == '-' then ([s], r) else (([] : List Char), s :: r)
        | [] => ([], [])
      match r1.span Char.isDigit with
      | ([], _) => none
      | (ds, r2) => some (e :: (sgn ++ ds), r2)
    else some ([], e :: rest)
  | [] => some ([], [])

/-- A JSON number starting at the head of the input. -/
def parseNumber (cs : List Char) : Option (Json × List Char) :=
  let (sgn, cs1) :=
    match cs with
    | '-' :: rest => (['-'], rest)
    | _ => (([] : List Char), cs)
  match parseIntPart cs1 with
  | none => none
  | some (ip, cs2) =>
    match parseFracPart cs2 with
    | none => none
    | some (fp, cs3) =>
      match parseExpPart cs3 with
      | none => none
      | some (ep, cs4) => some (Json.num ⟨sgn ++ ip ++ fp ++ ep⟩, cs4)

/-- Match an exact literal tail (`rue`, `alse`, `ull`). -/
def stripLit : List Char → List Char → Option (List Char)
  | [], cs => some cs
  | p :: ps, c :: cs => if p == c then stripLit ps cs else none
  | _ :: _, [] => none

mutual

/-- A JSON value (with leading whitespace allowed), fueled. -/
def parseValue : Nat → List Char → Option (Json × List Char)
  | 0, _ => none
  | fuel + 1, cs =>
    match skipWs cs with
    | [] => none
    | c :: rest =>
      if c == '\x7b' then
        match skipWs rest with
        | '\x7d' :: r2 => some (Json.obj [], r2)
        | r2 => (parseMembers fuel r2).map (fun p => (Json.obj p.1, p.2))
      else if c == '[' then
        match skipWs rest with
        | ']' :: r2 => some (Json.arr [], r2)
        | r2 => (parseElements fuel r2).map (fun p => (Json.arr p.1, p.2))
      else if c == '"' then
        (parseStringLit rest).map (fun p => (Json.str p.1, p.2))
      else if c == 't' then
        (stripLit ['r', 'u', 'e'] rest).map (fun r => (Json.bool true, r))
      else if c == 'f' then
        (stripLit ['a', 'l', 's', 'e'] rest).map (fun r => (Json.bool false, r))
      else if c == 'n' then
        (stripLit ['u', 'l', 'l'] rest).map (fun r => (Json.null, r))
      else if c == '-' || c.isDigit then
        parseNumber (c :: rest)
      else none

/-- One or more `"key": value` members of a JSON object, up to the closing
brace. -/
def parseMembers : Nat → List Char → Option (List (String × Json) × List Char)
  | 0, _ => none
  | fuel + 1, cs =>
    match skipWs cs with
    | '"' :: rest =>
      match parseStringLit rest with
      | none => none
      | some (key, r2) =>
        match skipWs r2 with
        | ':' :: r3 =>
          match parseValue fuel r3 with
          | none => none
          | some (v, r4) =>
            match skipWs r4 with
            | ',' :: r5 => (parseMembers fuel r5).map (fun p => ((key, v) :: p.1, p.2))
            | '\x7d' :: r5 => some ([(key, v)], r5)
            | _ => none
        | _ => none
    | _ => none

/-- One or more elements of a JSON array, up to the closing bracket. -/
def parseElements : Nat → List Char → Option (List Json × List Char)
  | 0, _ => none
  | fuel + 1, cs =>
    match parseValue fuel cs with
    | none => none
    | some (v, r) =>
      match skipWs r with
      | ',' :: r2 => (parseElements fuel r2).map (fun p => (v :: p.1, p.2))
      | ']' :: r2 => some ([v], r2)
      | _ => none

end

/-- `JSON.parse`: a single JSON value, with only whitespace allowed after it. -/
def Json.parse (s : String) : Option Json :=
  match parseValue (s.length + 1) s.data with
  | some (v, rest) => if (skipWs rest).isEmpty then some v else none
  | none => none

/-- Field lookup in a JSON object (first occurrence, as in a JS object read). -/
def Json.getField : Json → String → Option Json
  | .obj fields, key => fields.lookup key
  | _, _ => none

/-- Top-level key list of a JSON object. -/
def Json.topKeys : Json → Option (List String)
  | .obj fields => some (fields.map Prod.fst)
  | _ => none

/-- The greedy span match `text.match(/\x7b[\s\S]*\x7d/)` of
`generateProjectPlan`: the substring from the first `\x7b` to the last `\x7d`,
provided the latter comes after the former; otherwise no match. -/
def extractJsonSpan (text : String) : Option String :=
  let cs := text.data
  match List.findIdx? (fun c => c == '\x7b') cs,
        List.findIdx? (fun c => c == '\x7d') cs.reverse with
  | some i, some jr =>
    let j := cs.length - 1 - jr
    if i < j then some ⟨(cs.drop i).take (j - i + 1)⟩ else none
  | _, _ => none

/-- One prior turn of a conversation, as supplied in `conversationHistory`. -/
structure ConversationTurn where
  role : String
  content : String
deriving Repr, DecidableEq

/-- The external generative-model provider: maps the assembled prompt to
either the response text (`result.response.text()`) or the message of a
thrown error.  `GeminiAI` holds one such handle (`this.model`). -/
abbrev Provider := String → Except String String

/-- `try { ... await this.model.generateContent(prompt) ... } catch (error)
{ throw new Error(failMsg) }`: every provider failure is re-raised as the
operation's fixed failure message; the provider's own message is dropped
(only logged). -/
def callModel (provider : Provider) (prompt failMsg : String) : Except String String :=
  match provider prompt with
  | .ok t => .ok t
  | .error _ => .error failMsg

/-- Template of `GeminiAI.generateCode`. -/
def generateCodePrompt (language description : String) (requirements : List String) : String :=
  "\nGenerate " ++ language ++ " code for the following requirements:\n\nDescription: "
    ++ description ++ "\n\nRequirements:\n"
    ++ String.intercalate "\n" (requirements.map (fun req => "- " ++ req))
    ++ "\n\nPlease provide clean, well-commented code with proper error handling.\nInclude any necessary imports or dependencies.\n\nCode:\n"

/-- Template of `GeminiAI.analyzeCode`. -/
def analyzeCodePrompt (code language : String) : String :=
  "\nAnalyze the following " ++ language
    ++ " code and provide:\n1. Code quality assessment\n2. Potential improvements\n3. Security considerations\n4. Performance optimizations\n5. Best practices recommendations\n\nCode to analyze:\n```"
    ++ language ++ "\n" ++ code ++ "\n```\n\nAnalysis:\n"

/-- Template of `GeminiAI.generateFirebaseFunction`. -/
def firebaseFunctionPrompt (functionName description : String) : String :=
  "\nCreate a Firebase Cloud Function with the following specifications:\n\nFunction Name: "
    ++ functionName ++ "\nDescription: " ++ description
    ++ "\n\nRequirements:\n- Use Firebase Functions v2 syntax\n- Include proper error handling\n- Add appropriate logging\n- Include input validation\n- Follow Firebase best practices\n- Return appropriate HTTP responses\n\nGenerate the complete function code:\n"

/-- Template of `GeminiAI.generateJavaCode`. -/
def javaCodePrompt (className description : String) (features : List String) : String :=
  "\nGenerate Advanced Java code for a class named \"" ++ className
    ++ "\":\n\nDescription: " ++ description ++ "\n\nFeatures to implement:\n"
    ++ String.intercalate "\n" (features.map (fun feature => "- " ++ feature))
    ++ "\n\nRequirements:\n- Use Java 21 features where appropriate\n- Include proper JavaDoc comments\n- Implement appropriate design patterns\n- Add error handling and validation\n- Include unit test examples\n- Follow clean code principles\n\nGenerate the complete Java class:\n"

/-- `"<role>: <content>"`, one `conversationHistory` entry of `GeminiAI.chat`. -/
def renderTurn (t : ConversationTurn) : String :=
  t.role ++ ": " ++ t.content

/-- Prompt assembly of `GeminiAI.chat`: a `Previous conversation:` context
block when the history is non-empty, then `User: <message>`. -/
def chatPrompt (message : String) (history : List ConversationTurn) : String :=
  let context :=
    if history.length > 0 then
      "Previous conversation:\n" ++ String.intercalate "\n" (history.map renderTurn) ++ "\n\n"
    else ""
  context ++ "User: " ++ message

/-- Template of `GeminiAI.generateProjectPlan` (`systemPrompt`).  The build
context is interpolated as `JSON.stringify(buildContext, null, 2)`; it is
taken here already serialized (`buildContextJson`). -/
def projectPlanPrompt (prompt projectType buildContextJson : String) (requirements : List String) : String :=
  "\nYou are an expert software architect and project builder. Based on the user\x27s prompt, generate a comprehensive project plan including:\n\n1. PROJECT ANALYSIS\n   - Understanding of requirements\n   - Technology recommendations\n   - Architecture decisions\n\n2. FILE STRUCTURE\n   - Complete directory structure\n   - File organization\n   - Naming conventions\n\n3. CODE GENERATION\n   - Component files with complete code\n   - Configuration files\n   - Package dependencies\n\n4. IMPLEMENTATION STEPS\n   - Step-by-step build process\n   - Command sequences\n   - Deployment instructions\n\n5. FIREBASE INTEGRATION\n   - Database schema\n   - Cloud functions\n   - Security rules\n   - Authentication setup\n\n6. JAVA INTEGRATION (if applicable)\n   - Java class structure\n   - Maven/Gradle configuration\n   - Spring Boot setup (if needed)\n   - Integration patterns\n\nProject Type: "
    ++ projectType
    ++ "\nBuild Context: " ++ buildContextJson
    ++ "\nAdditional Requirements: " ++ String.intercalate ", " requirements
    ++ "\n\nUser Prompt: " ++ prompt
    ++ "\n\nGenerate a detailed project plan in JSON format with the following structure:\n\x7b\n  \"analysis\": \"Project understanding and recommendations\",\n  \"architecture\": \"System architecture overview\",\n  \"fileStructure\": \x7b\n    \"directories\": [\"list of directories to create\"],\n    \"files\": [\n      \x7b\n        \"path\": \"relative/path/to/file\",\n        \"type\": \"javascript|java|json|markdown|css|html\",\n        \"content\": \"complete file content\",\n        \"description\": \"purpose of this file\"\n      \x7d\n    ]\n  \x7d,\n  \"dependencies\": \x7b\n    \"npm\": [\"list of npm packages\"],\n    \"maven\": [\"list of maven dependencies\"],\n    \"firebase\": [\"list of firebase services needed\"]\n  \x7d,\n  \"commands\": \x7b\n    \"setup\": [\"initialization commands\"],\n    \"development\": [\"development commands\"],\n    \"deployment\": [\"deployment commands\"]\n  \x7d,\n  \"features\": [\"list of implemented features\"],\n  \"nextSteps\": [\"suggested next development steps\"]\n\x7d\n\nEnsure all code is production-ready, follows best practices, and includes proper error handling.\n"

namespace GeminiAI

/-- `GeminiAI.generateCode(language, description, requirements = [])`. -/
def generateCode (provider : Provider) (language description : String) (requirements : List String) : Except String String :=
  callModel provider (generateCodePrompt language description requirements) "Failed to generate code"

/-- `GeminiAI.analyzeCode(code, language)`. -/
def analyzeCode (provider : Provider) (code language : String) : Except String String :=
  callModel provider (analyzeCodePrompt code language) "Failed to analyze code"

/-- `GeminiAI.generateFirebaseFunction(functionName, description)`. -/
def generateFirebaseFunction (provider : Provider) (functionName description : String) : Except String String :=
  callModel provider (firebaseFunctionPrompt functionName description) "Failed to generate Firebase function"

/-- `GeminiAI.generateJavaCode(className, description, features = [])`. -/
def generateJavaCode (provider : Provider) (className description : String) (features : List String) : Except String String :=
  callModel provider (javaCodePrompt className description features) "Failed to generate Java code"

/-- `GeminiAI.chat(message, conversationHistory = [])`. -/
def chat (provider : Provider) (message : String) (history : List ConversationTurn) : Except String String :=
  callModel provider (chatPrompt message history) "Failed to process chat message"

/-- `GeminiAI.generateProjectPlan(prompt, projectType = 'web', requirements = [],
buildContext = \x7b\x7d)`.  `Option.none` models a JavaScript `undefined`
argument: the declared defaults then apply to `projectType`, `requirements`
and `buildContext` (whose serialization is `\x7b\x7d`), while an undefined
`prompt` has no default and interpolates as the text `undefined`.  On
provider success the greedy brace span is extracted; a parsable span is
returned as the parsed value, a match whose parse fails raises (the
`JSON.parse` exception reaches the surrounding catch and is re-thrown as
`Failed to generate project plan`), and a response with no span at all
returns the fallback object carrying the raw text. -/
def generateProjectPlan (provider : Provider) (prompt projectType : Option String)
    (requirements : Option (List String)) (buildContextJson : Option String) : Except String Json :=
  let sysPrompt := projectPlanPrompt (prompt.getD "undefined") (projectType.getD "web")
    (buildContextJson.getD "\x7b\x7d") (requirements.getD [])
  match provider sysPrompt with
  | .error _ => .error "Failed to generate project plan"
  | .ok text =>
    match extractJsonSpan text with
    | some span =>
      match Json.parse span with
      | some v => .ok v
      | none => .error "Failed to generate project plan"
    | none => .ok (Json.obj [("analysis", Json.str text),
        ("error", Json.str "Could not parse structured project plan")])

end GeminiAI

/-- An HTTP response as produced by `res.status(s).json(body)`. -/
structure HttpResponse where
  status : Nat
  body : Json
deriving Repr

/-- A request to `pages/api/gemini/chat.js`: the method and the destructured
body fields, `Option.none` for an absent (`undefined`) field. -/
structure ChatRequest where
  method : String
  message : Option String
  mode : Option String
  conversationHistory : Option (List ConversationTurn)
deriving Repr

/-- The `switch (mode)` of the chat handler: four recognized non-chat modes
with hard-coded auxiliary arguments; everything else (including `chat`)
falls to `GeminiAI.chat`. -/
def dispatch (provider : Provider) (mode message : String) (history : List ConversationTurn) : Except String String :=
  match mode with
  | "code" => GeminiAI.generateCode provider "javascript" message
      ["Clean, readable code", "Error handling", "Best practices"]
  | "java" => GeminiAI.generateJavaCode provider "GeneratedClass" message
      ["Modern Java patterns", "Documentation", "Unit tests"]
  | "firebase" => GeminiAI.generateFirebaseFunction provider "generatedFunction" message
  | "analyze" => GeminiAI.analyzeCode provider message "javascript"
  | _ => GeminiAI.chat provider message history

/-- The fixed failure message a given mode's gateway operation re-raises
(the catch clauses of `lib/gemini.js`). -/
def dispatchFailMsg (mode : String) : String :=
  match mode with
  | "code" => "Failed to generate code"
  | "java" => "Failed to generate Java code"
  | "firebase" => "Failed to generate Firebase function"
  | "analyze" => "Failed to analyze code"
  | _ => "Failed to process chat message"

/-- The handler of `pages/api/gemini/chat.js`.  `now` is the value of
`new Date().toISOString()`, the only impure input besides the provider. -/
def chatHandler (provider : Provider) (now : String) (req : ChatRequest) : HttpResponse :=
  if req.method ≠ "POST" then
    ⟨405, Json.obj [("error", Json.str "Method not allowed")]⟩
  else
    match req.message with
    | none => ⟨400, Json.obj [("error", Json.str "Message is required")]⟩
    | some m =>
      if m = "" then ⟨400, Json.obj [("error", Json.str "Message is required")]⟩
      else
        let mode := req.mode.getD "chat"
        match dispatch provider mode m (req.conversationHistory.getD []) with
        | .ok response =>
          ⟨200, Json.obj [("success", Json.bool true), ("response", Json.str response),
            ("mode", Json.str mode), ("timestamp", Json.str now)]⟩
        | .error emsg =>
          ⟨500, Json.obj [("error", Json.str "Failed to process chat message"),
            ("details", Json.str emsg)]⟩

/-- A request to `pages/api/gemini/project-builder.js`; the body fields are
destructured with no validation and no defaults. -/
structure BuilderRequest where
  method : String
  prompt : Option String
  projectType : Option String
  requirements : Option (List String)
  buildContext : Option String
deriving Repr

/-- The handler of `pages/api/gemini/project-builder.js`. -/
def projectBuilderHandler (provider : Provider) (now : String) (req : BuilderRequest) : HttpResponse :=
  if req.method ≠ "POST" then
    ⟨405, Json.obj [("error", Json.str "Method not allowed")]⟩
  else
    match GeminiAI.generateProjectPlan provider req.prompt req.projectType req.requirements req.buildContext with
    | .ok projectPlan =>
      ⟨200, Json.obj [("success", Json.bool true), ("projectPlan", projectPlan),
        ("timestamp", Json.str now)]⟩
    | .error emsg =>
      ⟨500, Json.obj [("error", Json.str "Failed to generate project plan"),
        ("details", Json.str emsg)]⟩

/-- Substring test: does `needle` occur contiguously in `hay`?  Used to state
the spec\x27s "details containing the message substring". -/
def containsSub : List Char → List Char → Bool
  | [], needle => needle.isEmpty
  | c :: t, needle => needle.isPrefixOf (c :: t) || containsSub t needle

/-- The fixed top-level key set the spec promises for a structured project
plan. -/
def planKeys : List String :=
  ["analysis", "architecture", "fileStructure", "dependencies", "commands", "features", "nextSteps"]

/-- Dispatching any mode outside the four recognized non-chat cases falls to
`GeminiAI.chat` (the `default` arm of the switch). -/
theorem dispatch_unrecognized (provider : Provider) (mode m : String)
    (hist : List ConversationTurn)
    (h1 : mode ≠ "code") (h2 : mode ≠ "java") (h3 : mode ≠ "firebase") (h4 : mode ≠ "analyze") :
    dispatch provider mode m hist = GeminiAI.chat provider m hist := by
  unfold dispatch
  split <;> simp_all

/-- With a provider that always fails, every dispatch arm re-raises its
fixed, mode-specific failure message. -/
theorem dispatch_error (merr mode m : String) (hist : List ConversationTurn) :
    dispatch (fun _ => .error merr) mode m hist = .error (dispatchFailMsg mode) := by
  unfold dispatch dispatchFailMsg
  split <;>
    simp_all [GeminiAI.generateCode, GeminiAI.generateJavaCode,
      GeminiAI.generateFirebaseFunction, GeminiAI.analyzeCode, GeminiAI.chat, callModel]

/-- C1: the claim says an invalid-JSON brace span degrades gracefully
(`structured = null`, raw text preserved, HTTP 200).  The code instead lets
the `JSON.parse` exception reach the surrounding catch, which re-throws
`Failed to generate project plan`, so the endpoint answers 500 and the raw
text is lost.  This theorem evaluates the code at such a failing input. -/
theorem C1_parse_failure_escalates_to_500 :
    extractJsonSpan "Here is the plan: \x7bbad\x7d" = some "\x7bbad\x7d" ∧
    Json.parse "\x7bbad\x7d" = none ∧
    GeminiAI.generateProjectPlan (fun _ => .ok "Here is the plan: \x7bbad\x7d")
      (some "make an app") none none none = .error "Failed to generate project plan" ∧
    projectBuilderHandler (fun _ => .ok "Here is the plan: \x7bbad\x7d") "t0"
      ⟨"POST", some "make an app", none, none, none⟩ =
      ⟨500, Json.obj [("error", Json.str "Failed to generate project plan"),
        ("details", Json.str "Failed to generate project plan")]⟩ :=
  ⟨rfl, rfl, rfl, rfl⟩

/-- C2 counterexample: a provider failure with message `quota exceeded` on a
plain chat request yields a 500 whose `details` is the Gateway's fixed
message `Failed to process chat message`, which does not contain the
provider's message as a substring — refuting the claim that the underlying
provider detail reaches the client. -/
theorem C2_counterexample :
    (chatHandler (fun _ => .error "quota exceeded") "t0"
      ⟨"POST", some "hi", none, none⟩).status = 500 ∧
    (chatHandler (fun _ => .error "quota exceeded") "t0"
      ⟨"POST", some "hi", none, none⟩).body.getField "details" =
      some (Json.str "Failed to process chat message") ∧
    containsSub "Failed to process chat message".data "quota exceeded".data = false :=
  ⟨rfl, rfl, rfl⟩

/-- C2 amended: when the provider throws, the endpoint answers 500 with an
`error` field present and `details` equal to the fixed mode-specific failure
message of the Gateway; the response is independent of the provider's own
message, which never reaches the client. -/
theorem C2_amended_fixed_details (req : ChatRequest) (now merr : String)
    (hmethod : req.method = "POST") (hmsg : ∃ s, req.message = some s ∧ s ≠ "") :
    (chatHandler (fun _ => .error merr) now req).status = 500 ∧
    ((chatHandler (fun _ => .error merr) now req).body.getField "error").isSome = true ∧
    (chatHandler (fun _ => .error merr) now req).body.getField "details" =
      some (Json.str (dispatchFailMsg (req.mode.getD "chat"))) ∧
    chatHandler (fun _ => .error merr) now req = chatHandler (fun _ => .error "") now req := by
  obtain ⟨s, hs, hne⟩ := hmsg
  unfold chatHandler
  simp only [hmethod, hs, ne_eq, dispatch_error]
  simp [hne, Json.getField, List.lookup]

/-- C2 amended, witnessed at a concrete request in `code` mode. -/
theorem C2_amended_witness :
    (chatHandler (fun _ => .error "boom") "t0"
      ⟨"POST", some "write code", some "code", none⟩).status = 500 ∧
    ((chatHandler (fun _ => .error "boom") "t0"
      ⟨"POST", some "write code", some "code", none⟩).body.getField "error").isSome = true ∧
    (chatHandler (fun _ => .error "boom") "t0"
      ⟨"POST", some "write code", some "code", none⟩).body.getField "details" =
      some (Json.str (dispatchFailMsg "code")) ∧
    chatHandler (fun _ => .error "boom") "t0" ⟨"POST", some "write code", some "code", none⟩ =
      chatHandler (fun _ => .error "") "t0" ⟨"POST", some "write code", some "code", none⟩ :=
  C2_amended_fixed_details ⟨"POST", some "write code", some "code", none⟩ "t0" "boom"
    rfl ⟨"write code", rfl, by decide⟩

/-- C3 counterexample: the same message and history under the unrecognized
mode `banana` and under mode `chat` produce different response bodies — the
200 envelope echoes the request's `mode` verbatim, so the bodies differ in
that field. -/
theorem C3_counterexample :
    chatHandler (fun _ => .ok "hello") "t0" ⟨"POST", some "hi", some "banana", none⟩ ≠
      chatHandler (fun _ => .ok "hello") "t0" ⟨"POST", some "hi", some "chat", none⟩ := by
  intro h
  have hm := congrArg (fun r => r.body.getField "mode") h
  simp [chatHandler, dispatch, GeminiAI.chat, callModel, Json.getField, List.lookup] at hm

/-- C3 amended: an unrecognized mode dispatches exactly as mode `chat` (same
Gateway invocation on the same message and history) and the responses agree
in status and in every body field except the echoed `mode`. -/
theorem C3_amended_chat_fallback (provider : Provider) (now method mode : String)
    (message : Option String) (hist : Option (List ConversationTurn))
    (h1 : mode ≠ "code") (h2 : mode ≠ "java") (h3 : mode ≠ "firebase") (h4 : mode ≠ "analyze") :
    (∀ m h, dispatch provider mode m h = GeminiAI.chat provider m h) ∧
    (chatHandler provider now ⟨method, message, some mode, hist⟩).status =
      (chatHandler provider now ⟨method, message, some "chat", hist⟩).status ∧
    (∀ field, field ≠ "mode" →
      (chatHandler provider now ⟨method, message, some mode, hist⟩).body.getField field =
        (chatHandler provider now ⟨method, message, some "chat", hist⟩).body.getField field) := by
  have hd : ∀ m h, dispatch provider mode m h = GeminiAI.chat provider m h :=
    fun m h => dispatch_unrecognized provider mode m h h1 h2 h3 h4
  refine ⟨hd, ?_⟩
  unfold chatHandler
  by_cases hm : method ≠ "POST"
  · simp [hm]
  · simp only [hm]
    cases message with
    | none => simp
    | some m =>
      by_cases hme : m = ""
      · simp [hme]
      · simp only [hme, Option.getD_some]
        rw [hd m (hist.getD []), show dispatch provider "chat" m (hist.getD []) =
          GeminiAI.chat provider m (hist.getD []) from rfl]
        cases GeminiAI.chat provider m (hist.getD []) with
        | ok r =>
          refine ⟨rfl, fun field hf => ?_⟩
          have hb : (field == "mode") = false := by simpa using hf
          simp [Json.getField, List.lookup, hb]
        | error e => simp

/-- C3 amended, witnessed at mode `banana` with a concrete provider. -/
theorem C3_amended_witness :
    (∀ m h, dispatch (fun _ => .ok "hello") "banana" m h =
      GeminiAI.chat (fun _ => .ok "hello") m h) ∧
    (chatHandler (fun _ => .ok "hello") "t0" ⟨"POST", some "hi", some "banana", none⟩).status =
      (chatHandler (fun _ => .ok "hello") "t0" ⟨"POST", some "hi", some "chat", none⟩).status ∧
    (∀ field, field ≠ "mode" →
      (chatHandler (fun _ => .ok "hello") "t0"
        ⟨"POST", some "hi", some "banana", none⟩).body.getField field =
        (chatHandler (fun _ => .ok "hello") "t0"
          ⟨"POST", some "hi", some "chat", none⟩).body.getField field) :=
  C3_amended_chat_fallback (fun _ => .ok "hello") "t0" "POST" "banana" (some "hi") none
    (by decide) (by decide) (by decide) (by decide)

/-- C4: the assembled chat prompt contains the prior turns rendered as
`<role>: <content>`, in order, joined by newlines, followed by
`User: <message>` at the end (the template additionally puts a
`Previous conversation:` header in front when history is non-empty); in
particular for history `[\x7buser,a\x7d,\x7bassistant,b\x7d]` and message
`c` the prompt contains `user: a` before `assistant: b` before `User: c`. -/
theorem C4_prompt_assembly_order (message : String) (history : List ConversationTurn) :
    (∃ pre sep, chatPrompt message history =
      pre ++ String.intercalate "\n" (history.map renderTurn) ++ (sep ++ ("User: " ++ message))) ∧
    (∃ s1 s2 s3, chatPrompt "c" [⟨"user", "a"⟩, ⟨"assistant", "b"⟩] =
      s1 ++ ("user: a" ++ (s2 ++ ("assistant: b" ++ (s3 ++ "User: c"))))) := by
  constructor
  · cases history with
    | nil =>
      refine ⟨"", "", ?_⟩
      simp [chatPrompt, String.intercalate]
    | cons t ts =>
      refine ⟨"Previous conversation:\n", "\n\n", ?_⟩
      simp only [chatPrompt, List.length_cons, List.map_cons, String.append_assoc,
        Nat.zero_lt_succ, if_pos, gt_iff_lt]
  · exact ⟨"Previous conversation:\n", "\n", "\n\n", by decide⟩

/-- C5 counterexample: a provider response whose brace span is the valid
JSON object `\x7b"foo": 1\x7d` makes `generateProjectPlan` return that
object unchanged — a non-null structured result whose top-level keys are
`[foo]`, not the seven keys the claim promises. -/
theorem C5_counterexample :
    GeminiAI.generateProjectPlan (fun _ => .ok "Sure! \x7b\"foo\": 1\x7d")
      (some "p") none none none = .ok (Json.obj [("foo", Json.num "1")]) ∧
    Json.topKeys (Json.obj [("foo", Json.num "1")]) = some ["foo"] ∧
    ["foo"] ≠ planKeys :=
  ⟨rfl, rfl, by decide⟩

/-- C5 amended: whenever the brace span of the provider's response parses as
JSON, `generateProjectPlan` returns the parsed value as-is — the fixed key
shape is requested in the prompt but never validated on the output. -/
theorem C5_amended_no_shape_validation (text span : String) (v : Json)
    (pr pt : Option String) (reqs : Option (List String)) (ctx : Option String)
    (hs : extractJsonSpan text = some span) (hv : Json.parse span = some v) :
    GeminiAI.generateProjectPlan (fun _ => .ok text) pr pt reqs ctx = .ok v := by
  unfold GeminiAI.generateProjectPlan
  simp [hs, hv]

/-- C5 amended, witnessed on a minimal valid object span. -/
theorem C5_amended_witness :
    GeminiAI.generateProjectPlan (fun _ => .ok "ok \x7b\"a\": true\x7d")
      none none none none = .ok (Json.obj [("a", Json.bool true)]) :=
  C5_amended_no_shape_validation "ok \x7b\"a\": true\x7d" "\x7b\"a\": true\x7d"
    (Json.obj [("a", Json.bool true)]) none none none none rfl rfl

/-- C6: a POST chat request whose `message` is missing or empty is answered
400 with body `\x7b error: Message is required \x7d`, and the response does
not depend on the provider or the clock at all — no provider call is made. -/
theorem C6_message_required (req : ChatRequest) (p₁ p₂ : Provider) (now₁ now₂ : String)
    (hmethod : req.method = "POST") (hmsg : req.message = none ∨ req.message = some "") :
    chatHandler p₁ now₁ req = ⟨400, Json.obj [("error", Json.str "Message is required")]⟩ ∧
    chatHandler p₁ now₁ req = chatHandler p₂ now₂ req := by
  have key : ∀ (p : Provider) (now : String),
      chatHandler p now req = ⟨400, Json.obj [("error", Json.str "Message is required")]⟩ := by
    intro p now
    unfold chatHandler
    rcases hmsg with h | h <;> simp [hmethod, h]
  exact ⟨key p₁ now₁, (key p₁ now₁).trans (key p₂ now₂).symm⟩

/-- C6, witnessed at a missing message with two distinct providers. -/
theorem C6_witness :
    chatHandler (fun _ => .ok "x") "t0" ⟨"POST", none, none, none⟩ =
      ⟨400, Json.obj [("error", Json.str "Message is required")]⟩ ∧
    chatHandler (fun _ => .ok "x") "t0" ⟨"POST", none, none, none⟩ =
      chatHandler (fun _ => .error "down") "t1" ⟨"POST", none, none, none⟩ :=
  C6_message_required ⟨"POST", none, none, none⟩ (fun _ => .ok "x")
    (fun _ => .error "down") "t0" "t1" rfl (Or.inl rfl)

/-- C7: any non-POST request to either endpoint is answered 405 with body
`\x7b error: Method not allowed \x7d`, whatever the body holds, and the
response does not depend on the provider or the clock — no provider call is
made. -/
theorem C7_method_not_allowed (creq : ChatRequest) (breq : BuilderRequest)
    (p₁ p₂ : Provider) (now₁ now₂ : String)
    (hc : creq.method ≠ "POST") (hb : breq.method ≠ "POST") :
    chatHandler p₁ now₁ creq = ⟨405, Json.obj [("error", Json.str "Method not allowed")]⟩ ∧
    projectBuilderHandler p₁ now₁ breq =
      ⟨405, Json.obj [("error", Json.str "Method not allowed")]⟩ ∧
    chatHandler p₁ now₁ creq = chatHandler p₂ now₂ creq ∧
    projectBuilderHandler p₁ now₁ breq = projectBuilderHandler p₂ now₂ breq := by
  have kc : ∀ (p : Provider) (now : String),
      chatHandler p now creq = ⟨405, Json.obj [("error", Json.str "Method not allowed")]⟩ := by
    intro p now
    unfold chatHandler
    simp [hc]
  have kb : ∀ (p : Provider) (now : String),
      projectBuilderHandler p now breq =
        ⟨405, Json.obj [("error", Json.str "Method not allowed")]⟩ := by
    intro p now
    unfold projectBuilderHandler
    simp [hb]
  exact ⟨kc p₁ now₁, kb p₁ now₁, (kc p₁ now₁).trans (kc p₂ now₂).symm,
    (kb p₁ now₁).trans (kb p₂ now₂).symm⟩

/-- C7, witnessed on GET requests with bodies present. -/
theorem C7_witness :
    chatHandler (fun _ => .ok "x") "t0" ⟨"GET", some "hi", some "code", none⟩ =
      ⟨405, Json.obj [("error", Json.str "Method not allowed")]⟩ ∧
    projectBuilderHandler (fun _ => .ok "x") "t0" ⟨"GET", some "p", none, none, none⟩ =
      ⟨405, Json.obj [("error", Json.str "Method not allowed")]⟩ ∧
    chatHandler (fun _ => .ok "x") "t0" ⟨"GET", some "hi", some "code", none⟩ =
      chatHandler (fun _ => .error "down") "t1" ⟨"GET", some "hi", some "code", none⟩ ∧
    projectBuilderHandler (fun _ => .ok "x") "t0" ⟨"GET", some "p", none, none, none⟩ =
      projectBuilderHandler (fun _ => .error "down") "t1" ⟨"GET", some "p", none, none, none⟩ :=
  C7_method_not_allowed ⟨"GET", some "hi", some "code", none⟩ ⟨"GET", some "p", none, none, none⟩
    (fun _ => .ok "x") (fun _ => .error "down") "t0" "t1" (by decide) (by decide)

/-- C8: with the provider a deterministic function, the chat handler's
status and `response` field are identical across runs of the same request —
the clock (`now`), the only other impure input, never influences them, so
the Gateway and Dispatcher add no non-determinism to the response text. -/
theorem C8_response_deterministic (provider : Provider) (req : ChatRequest)
    (now₁ now₂ : String) :
    (chatHandler provider now₁ req).status = (chatHandler provider now₂ req).status ∧
    (chatHandler provider now₁ req).body.getField "response" =
      (chatHandler provider now₂ req).body.getField "response" := by
  unfold chatHandler
  by_cases hm : req.method ≠ "POST"
  · simp [hm]
  · simp only [hm, if_false]
    cases req.message with
    | none => simp
    | some m =>
      by_cases hme : m = ""
      · simp [hme]
      · simp only [hme, if_false]
        cases dispatch provider (req.mode.getD "chat") m (req.conversationHistory.getD []) with
        | ok r => simp [Json.getField, List.lookup]
        | error e => simp

/-- C9 counterexample: a POST to the project builder with an entirely empty
body and a provider that succeeds (returning a brace span that is not valid
JSON) is answered 500, refuting the claim that absent a provider failure the
endpoint responds 200. -/
theorem C9_counterexample :
    (projectBuilderHandler (fun _ => .ok "\x7bnot json\x7d") "t0"
      ⟨"POST", none, none, none, none⟩).status = 500 := rfl

/-- C9 amended: the project-builder endpoint never answers 400; for every
POST body the handler's outcome is determined by `generateProjectPlan`
applied to exactly the supplied (possibly undefined) fields, and whenever
that call returns a plan the endpoint answers 200.  A 500 remains possible
without a provider failure, when the returned brace span fails to parse. -/
theorem C9_amended_no_validation (provider : Provider) (now : String) (req : BuilderRequest) :
    (projectBuilderHandler provider now req).status ≠ 400 ∧
    (req.method = "POST" →
      (∀ p₁ p₂ : Provider,
        GeminiAI.generateProjectPlan p₁ req.prompt req.projectType req.requirements req.buildContext =
          GeminiAI.generateProjectPlan p₂ req.prompt req.projectType req.requirements req.buildContext →
        projectBuilderHandler p₁ now req = projectBuilderHandler p₂ now req) ∧
      (∀ plan,
        GeminiAI.generateProjectPlan provider req.prompt req.projectType req.requirements req.buildContext =
          .ok plan →
        (projectBuilderHandler provider now req).status = 200)) := by
  refine ⟨?_, fun hpost => ⟨fun p₁ p₂ hp => ?_, fun plan hplan => ?_⟩⟩
  · unfold projectBuilderHandler
    by_cases hm : req.method ≠ "POST"
    · simp [hm]
    · simp only [hm, if_false]
      cases GeminiAI.generateProjectPlan provider req.prompt req.projectType req.requirements
        req.buildContext with
      | ok plan => simp
      | error e => simp
  · unfold projectBuilderHandler
    rw [hp]
  · unfold projectBuilderHandler
    simp [hpost, hplan]

/-- C9 amended, witnessed: an empty POST body with a parsable provider
response is not 400 and is 200. -/
theorem C9_amended_witness :
    (projectBuilderHandler (fun _ => .ok "\x7b\"analysis\": \"ok\"\x7d") "t0"
      ⟨"POST", none, none, none, none⟩).status ≠ 400 ∧
    (projectBuilderHandler (fun _ => .ok "\x7b\"analysis\": \"ok\"\x7d") "t0"
      ⟨"POST", none, none, none, none⟩).status = 200 :=
  ⟨(C9_amended_no_validation (fun _ => .ok "\x7b\"analysis\": \"ok\"\x7d") "t0"
      ⟨"POST", none, none, none, none⟩).1,
   ((C9_amended_no_validation (fun _ => .ok "\x7b\"analysis\": \"ok\"\x7d") "t0"
      ⟨"POST", none, none, none, none⟩).2 rfl).2
     (Json.obj [("analysis", Json.str "ok")]) rfl⟩

/-- C10: in each recognized non-chat mode the handler consults the provider
only at the one prompt built from the hard-coded auxiliary parameters
(`javascript` plus the fixed three requirements for `code`, `GeneratedClass`
plus the fixed feature list for `java`, `generatedFunction` for `firebase`,
`javascript` for `analyze`) and the caller's message; the conversation
history supplied in the request is ignored entirely. -/
theorem C10_hardcoded_aux_params (now m : String) :
    (∀ (p₁ p₂ : Provider) (h₁ h₂ : Option (List ConversationTurn)),
      p₁ (generateCodePrompt "javascript" m
          ["Clean, readable code", "Error handling", "Best practices"]) =
        p₂ (generateCodePrompt "javascript" m
          ["Clean, readable code", "Error handling", "Best practices"]) →
      chatHandler p₁ now ⟨"POST", some m, some "code", h₁⟩ =
        chatHandler p₂ now ⟨"POST", some m, some "code", h₂⟩) ∧
    (∀ (p₁ p₂ : Provider) (h₁ h₂ : Option (List ConversationTurn)),
      p₁ (javaCodePrompt "GeneratedClass" m
          ["Modern Java patterns", "Documentation", "Unit tests"]) =
        p₂ (javaCodePrompt "GeneratedClass" m
          ["Modern Java patterns", "Documentation", "Unit tests"]) →
      chatHandler p₁ now ⟨"POST", some m, some "java", h₁⟩ =
        chatHandler p₂ now ⟨"POST", some m, some "java", h₂⟩) ∧
    (∀ (p₁ p₂ : Provider) (h₁ h₂ : Option (List ConversationTurn)),
      p₁ (firebaseFunctionPrompt "generatedFunction" m) =
        p₂ (firebaseFunctionPrompt "generatedFunction" m) →
      chatHandler p₁ now ⟨"POST", some m, some "firebase", h₁⟩ =
        chatHandler p₂ now ⟨"POST", some m, some "firebase", h₂⟩) ∧
    (∀ (p₁ p₂ : Provider) (h₁ h₂ : Option (List ConversationTurn)),
      p₁ (analyzeCodePrompt m "javascript") = p₂ (analyzeCodePrompt m "javascript") →
      chatHandler p₁ now ⟨"POST", some m, some "analyze", h₁⟩ =
        chatHandler p₂ now ⟨"POST", some m, some "analyze", h₂⟩) := by
  refine ⟨fun p₁ p₂ h₁ h₂ hp => ?_, fun p₁ p₂ h₁ h₂ hp => ?_,
    fun p₁ p₂ h₁ h₂ hp => ?_, fun p₁ p₂ h₁ h₂ hp => ?_⟩ <;>
  · unfold chatHandler
    by_cases hme : m = ""
    · simp [hme]
    · simp only [hme, if_false]
      simp [dispatch, GeminiAI.generateCode, GeminiAI.generateJavaCode,
        GeminiAI.generateFirebaseFunction, GeminiAI.analyzeCode, callModel, hp]

/-- C10, witnessed: in `code` mode two different histories give the same
response with the same provider. -/
theorem C10_witness :
    chatHandler (fun _ => .ok "generated") "t0" ⟨"POST", some "add two numbers", some "code", none⟩ =
      chatHandler (fun _ => .ok "generated") "t0"
        ⟨"POST", some "add two numbers", some "code", some [⟨"user", "earlier"⟩]⟩ :=
  (C10_hardcoded_aux_params "t0" "add two numbers").1 (fun _ => .ok "generated")
    (fun _ => .ok "generated") none (some [⟨"user", "earlier"⟩]) rfl
